import Mathlib

/-!
Verification of the rgmsh handle layer: a shallow embedding of the
Rust sources (src/err.rs, src/lib.rs, src/model/mod.rs, src/model/geo.rs,
src/model/occ.rs, src/geo.rs) together with proofs about the embedded
operations.

The external Gmsh kernel is a black box reached over FFI.  We model it as
an oracle: a function from the history of Backend Interface calls and the
present call to an integer status, an output tag, and output values.  Every
wrapper operation threads an explicit list of issued calls, so ordering
properties (select-before-operate, no call after a failed select) become
statements about that trace.

Floating point values (f64 coordinates, mesh sizes, option values) are
never computed on by the wrapper: they are passed through to the kernel
unchanged.  They are therefore embedded as an opaque type parameter F,
instantiated with Int in concrete witnesses.
-/

set_option autoImplicit false

/-- The error type of src/err.rs (enum GmshError), variant for variant. -/
inductive GmshError where
  | Initialization
  | Execution
  | CInterface
  | ModelMutation
  | ModelLookup
  | ModelBadInput
  | ModelParallelMeshQuery
  | UnknownOption
  | UnknownError
deriving DecidableEq, Repr

/-- The result alias of src/err.rs: type GmshResult T = Result T GmshError. -/
abbrev GmshResult (α : Type) : Type := Except GmshError α

/-- One Backend Interface call, as listed in src/interface.rs and the
gmsh_sys call sites of lib.rs, model/mod.rs, model/geo.rs and model/occ.rs.
F is the type standing for f64 data passed across the boundary. -/
inductive BICall (F : Type) where
  | gmshInit (argc : Int) (argv : List String) (readConfigFiles : Int)
  | gmshFinalize
  | modelAdd (name : String)
  | modelSetCurrent (name : String)
  | modelRemove
  | meshGenerate (dim : Int)
  | geoAddPoint (x y z lc : F) (tag : Int)
  | geoRemove (dimTags : List Int) (recursive : Int)
  | geoAddLine (startTag endTag tag : Int)
  | geoSynchronize
  | occAddPoint (x y z lc : F) (tag : Int)
  | occAddLine (startTag endTag tag : Int)
  | occSynchronize
  | optionGetNumber (name : String)
  | optionSetNumber (name : String) (value : F)
  | optionGetString (name : String)
  | optionSetString (name value : String)
deriving DecidableEq

/-- What the kernel hands back for one call: the integer status written to
the ierr out-parameter, the returned entity tag (for constructors), the
numeric out-value (for option reads) and the string out-value (for option
reads; none stands for bytes that are not valid UTF-8, the case the Rust
code answers with GmshError::CInterface). -/
structure BIResult (F : Type) where
  status : Int
  tag : Int
  num : F
  str : Option String

/-- A black-box backend: the response may depend on the whole call history,
which is how the hidden global state of the kernel is represented. -/
def BIOracle (F : Type) : Type := List (BICall F) → BICall F → BIResult F

/-- The `?` operator of Rust on a (result, trace) pair: propagate an error
without issuing further calls, otherwise continue. -/
def andThen {F : Type} {α β : Type}
    (step : GmshResult α × List (BICall F))
    (k : α → List (BICall F) → GmshResult β × List (BICall F)) :
    GmshResult β × List (BICall F) :=
  match step with
  | (Except.error e, tr) => (Except.error e, tr)
  | (Except.ok a, tr) => k a tr

/-- Transcribed from src/err.rs, macro check_main_error: statuses of
top-level Gmsh functions. -/
def check_main_error {α : Type} (ierr : Int) (return_val : α) : GmshResult α :=
  if ierr = 0 then Except.ok return_val
  else if ierr = -1 then Except.error GmshError.Initialization
  else if ierr = 1 then Except.error GmshError.Execution
  else Except.error GmshError.UnknownError

/-- Transcribed from src/err.rs, macro check_model_error: statuses of
model functions. -/
def check_model_error {α : Type} (ierr : Int) (return_val : α) : GmshResult α :=
  if ierr = 0 then Except.ok return_val
  else if ierr = -1 then Except.error GmshError.Initialization
  else if ierr = 1 then Except.error GmshError.ModelMutation
  else if ierr = 2 then Except.error GmshError.ModelLookup
  else if ierr = 3 then Except.error GmshError.ModelBadInput
  else if ierr = 4 then Except.error GmshError.ModelParallelMeshQuery
  else Except.error GmshError.UnknownError

/-- Transcribed from src/err.rs, macro check_option_error: statuses of
option configuration functions. -/
def check_option_error {α : Type} (ierr : Int) (return_val : α) : GmshResult α :=
  if ierr = 0 then Except.ok return_val
  else if ierr = -1 then Except.error GmshError.Initialization
  else if ierr = 1 then Except.error GmshError.UnknownOption
  else Except.error GmshError.UnknownError

/-- Two-complement wrap into the i32 range, the release-mode semantics of
Rust integer arithmetic; used to embed negation of the raw i32 inside a
curve tag. -/
def wrap32 (i : Int) : Int := (i + 2 ^ 31) % 2 ^ 32 - 2 ^ 31

/-- PointTag of model/mod.rs and geo.rs: a thin wrapper over an i32 issued
by the kernel, with no public constructor in Rust. -/
structure PointTag where
  val : Int
deriving DecidableEq, Repr

/-- CurveTag of model/mod.rs and geo.rs. -/
structure CurveTag where
  val : Int
deriving DecidableEq, Repr

/-- WireTag of model/mod.rs and geo.rs. -/
structure WireTag where
  val : Int
deriving DecidableEq, Repr

/-- SurfaceTag of model/mod.rs and geo.rs. -/
structure SurfaceTag where
  val : Int
deriving DecidableEq, Repr

/-- ShellTag of model/mod.rs and geo.rs. -/
structure ShellTag where
  val : Int
deriving DecidableEq, Repr

/-- VolumeTag of model/mod.rs and geo.rs. -/
structure VolumeTag where
  val : Int
deriving DecidableEq, Repr

/-- The to_raw method of the GmshTag trait for points. -/
def PointTag.to_raw (t : PointTag) : Int := t.val

/-- The to_raw method of the GmshTag trait for curves. -/
def CurveTag.to_raw (t : CurveTag) : Int := t.val

/-- The to_raw method of the GmshTag trait for wires. -/
def WireTag.to_raw (t : WireTag) : Int := t.val

/-- The to_raw method of the GmshTag trait for surfaces. -/
def SurfaceTag.to_raw (t : SurfaceTag) : Int := t.val

/-- impl Neg for CurveTag (model/mod.rs lines 623 to 631 and geo.rs lines
174 to 183): CurveTag(i) maps to CurveTag(-i), a pure value transform on
the wrapped i32 with no Backend Interface call (its type involves no
oracle and no trace). -/
def CurveTag.neg (c : CurveTag) : CurveTag := CurveTag.mk (wrap32 (-c.val))

instance : Neg CurveTag := ⟨CurveTag.neg⟩

/-- The closed capability group CurveOrSurface of model/mod.rs (private
module geometry_groups) and geo.rs: exactly a curve case and a surface
case. -/
inductive CurveOrSurface where
  | Curve (t : CurveTag)
  | Surface (t : SurfaceTag)
deriving DecidableEq, Repr

/-- impl From of CurveTag for CurveOrSurface. -/
def CurveOrSurface.ofCurveTag (t : CurveTag) : CurveOrSurface :=
  CurveOrSurface.Curve t

/-- impl From of SurfaceTag for CurveOrSurface. -/
def CurveOrSurface.ofSurfaceTag (t : SurfaceTag) : CurveOrSurface :=
  CurveOrSurface.Surface t

/-- Modelled from the spec: get_cstring is imported from the interface
module by lib.rs, model/mod.rs, model/geo.rs and geo.rs but its body is
not among the sources.  Sections 4.3 and 7 of the spec describe the
marshalling boundary: a name containing an embedded terminator character
cannot be passed across the boundary and fails with the foreign-interface
kind (GmshError::CInterface), independent of any status code. -/
def get_cstring (name : String) : GmshResult String :=
  if name.data.contains (Char.ofNat 0) then Except.error GmshError.CInterface
  else Except.ok name

/-- The Gmsh context object of src/lib.rs (it carries no fields). -/
structure Gmsh where
deriving DecidableEq, Repr

section WrapperOps

variable {F : Type}

/-- Gmsh::get_number_option of src/lib.rs: marshal the name, call
gmshOptionGetNumber, interpret the status with check_option_error and
return the out-value on success. -/
def Gmsh.get_number_option (_self : Gmsh) (name : String)
    (ora : BIOracle F) (tr : List (BICall F)) :
    GmshResult F × List (BICall F) :=
  match get_cstring name with
  | Except.error e => (Except.error e, tr)
  | Except.ok c_name =>
      let r := ora tr (BICall.optionGetNumber c_name)
      let tr := tr ++ [BICall.optionGetNumber c_name]
      (check_option_error r.status r.num, tr)

/-- Gmsh::set_number_option of src/lib.rs. -/
def Gmsh.set_number_option (_self : Gmsh) (name : String) (value : F)
    (ora : BIOracle F) (tr : List (BICall F)) :
    GmshResult Unit × List (BICall F) :=
  match get_cstring name with
  | Except.error e => (Except.error e, tr)
  | Except.ok c_name =>
      let r := ora tr (BICall.optionSetNumber c_name value)
      let tr := tr ++ [BICall.optionSetNumber c_name value]
      (check_option_error r.status (), tr)

/-- Gmsh::get_string_option of src/lib.rs: on a string out-value that is
not valid UTF-8 the Rust code answers CInterface regardless of the status;
otherwise the status is interpreted with check_option_error. -/
def Gmsh.get_string_option (_self : Gmsh) (name : String)
    (ora : BIOracle F) (tr : List (BICall F)) :
    GmshResult String × List (BICall F) :=
  match get_cstring name with
  | Except.error e => (Except.error e, tr)
  | Except.ok c_name =>
      let r := ora tr (BICall.optionGetString c_name)
      let tr := tr ++ [BICall.optionGetString c_name]
      (match r.str with
       | some val => check_option_error r.status val
       | none => Except.error GmshError.CInterface, tr)

/-- Gmsh::set_string_option of src/lib.rs. -/
def Gmsh.set_string_option (_self : Gmsh) (name : String) (value : String)
    (ora : BIOracle F) (tr : List (BICall F)) :
    GmshResult Unit × List (BICall F) :=
  match get_cstring name with
  | Except.error e => (Except.error e, tr)
  | Except.ok c_name =>
      match get_cstring value with
      | Except.error e => (Except.error e, tr)
      | Except.ok c_value =>
          let r := ora tr (BICall.optionSetString c_name c_value)
          let tr := tr ++ [BICall.optionSetString c_name c_value]
          (check_option_error r.status (), tr)

/-- Gmsh::initialize of src/lib.rs: call gmshInitialize with argv = [gmsh]
and no configuration files; on status 0 build the context and configure
terminal logging through set_number_option, propagating its error with the
? operator; on a nonzero status fail with Initialization.  (The Lean name
differs from the Rust name for tooling reasons only.) -/
def Gmsh.initialize_session [One F] (ora : BIOracle F) (tr : List (BICall F)) :
    GmshResult Gmsh × List (BICall F) :=
  let r := ora tr (BICall.gmshInit 1 ["gmsh"] 0)
  let tr := tr ++ [BICall.gmshInit 1 ["gmsh"] 0]
  if r.status = 0 then
    match Gmsh.set_number_option Gmsh.mk "General.Terminal" 1 ora tr with
    | (Except.ok _, tr) => (Except.ok Gmsh.mk, tr)
    | (Except.error e, tr) => (Except.error e, tr)
  else
    (Except.error GmshError.Initialization, tr)

/-- The model type Geo of src/model/geo.rs (textually identical to the
earlier snapshot Geo of src/geo.rs, so this one embedding covers both). -/
structure Geo where
  name : String
  c_name : String
deriving DecidableEq, Repr

/-- Geo::new of model/geo.rs: gmshModelAdd, status 0 builds the handle,
-1 is Initialization, anything else Execution. -/
def Geo.new (name : String) (ora : BIOracle F) (tr : List (BICall F)) :
    GmshResult Geo × List (BICall F) :=
  match get_cstring name with
  | Except.error e => (Except.error e, tr)
  | Except.ok c_name =>
      let r := ora tr (BICall.modelAdd c_name)
      let tr := tr ++ [BICall.modelAdd c_name]
      ( if r.status = 0 then Except.ok (Geo.mk name c_name)
        else if r.status = -1 then Except.error GmshError.Initialization
        else Except.error GmshError.Execution, tr)

/-- Geo::set_to_current of model/geo.rs: gmshModelSetCurrent, any nonzero
status is Execution. -/
def Geo.set_to_current (self : Geo) (ora : BIOracle F) (tr : List (BICall F)) :
    GmshResult Unit × List (BICall F) :=
  let r := ora tr (BICall.modelSetCurrent self.c_name)
  let tr := tr ++ [BICall.modelSetCurrent self.c_name]
  if r.status = 0 then (Except.ok (), tr)
  else (Except.error GmshError.Execution, tr)

/-- Geo::remove of model/geo.rs: select first, then gmshModelRemove on the
current model; any nonzero status of the removal is Execution. -/
def Geo.remove (self : Geo) (ora : BIOracle F) (tr : List (BICall F)) :
    GmshResult Unit × List (BICall F) :=
  andThen (self.set_to_current ora tr) (fun _ tr =>
    let r := ora tr BICall.modelRemove
    let tr := tr ++ [BICall.modelRemove]
    ( if r.status = 0 then Except.ok ()
      else Except.error GmshError.Execution, tr))

/-- Geo::add_point_gen of model/geo.rs lines 77 to 103: a missing mesh
size defaults to 0, the tag hint is -1 (auto numbering); note the final
catch-all arm of the status match is Execution here, unlike
check_model_error whose catch-all is UnknownError. -/
def Geo.add_point_gen [Zero F] (_self : Geo) (coords : F × F × F)
    (mesh_size : Option F) (ora : BIOracle F) (tr : List (BICall F)) :
    GmshResult PointTag × List (BICall F) :=
  let (x, y, z) := coords
  let lc := mesh_size.getD 0
  let auto_number : Int := -1
  let r := ora tr (BICall.geoAddPoint x y z lc auto_number)
  let tr := tr ++ [BICall.geoAddPoint x y z lc auto_number]
  ( if r.status = 0 then Except.ok (PointTag.mk r.tag)
    else if r.status = -1 then Except.error GmshError.Initialization
    else if r.status = 1 then Except.error GmshError.ModelMutation
    else if r.status = 2 then Except.error GmshError.ModelLookup
    else if r.status = 3 then Except.error GmshError.ModelBadInput
    else if r.status = 4 then Except.error GmshError.ModelParallelMeshQuery
    else Except.error GmshError.Execution, tr)

/-- Geo::add_point of model/geo.rs: select, then the shared constructor
with no mesh size. -/
def Geo.add_point [Zero F] (self : Geo) (x y z : F)
    (ora : BIOracle F) (tr : List (BICall F)) :
    GmshResult PointTag × List (BICall F) :=
  andThen (self.set_to_current ora tr) (fun _ tr =>
    self.add_point_gen (x, y, z) none ora tr)

/-- Geo::add_point_with_lc of model/geo.rs: select, then the shared
constructor with the given mesh size. -/
def Geo.add_point_with_lc [Zero F] (self : Geo) (x y z lc : F)
    (ora : BIOracle F) (tr : List (BICall F)) :
    GmshResult PointTag × List (BICall F) :=
  andThen (self.set_to_current ora tr) (fun _ tr =>
    self.add_point_gen (x, y, z) (some lc) ora tr)

/-- Geo::remove_point of model/geo.rs: select, then gmshModelGeoRemove on
the one raw tag, non recursive; same inline status match as add_point_gen. -/
def Geo.remove_point (self : Geo) (p : PointTag)
    (ora : BIOracle F) (tr : List (BICall F)) :
    GmshResult Unit × List (BICall F) :=
  andThen (self.set_to_current ora tr) (fun _ tr =>
    let raw_tag := p.val
    let is_recursive : Int := 0
    let r := ora tr (BICall.geoRemove [raw_tag] is_recursive)
    let tr := tr ++ [BICall.geoRemove [raw_tag] is_recursive]
    ( if r.status = 0 then Except.ok ()
      else if r.status = -1 then Except.error GmshError.Initialization
      else if r.status = 1 then Except.error GmshError.ModelMutation
      else if r.status = 2 then Except.error GmshError.ModelLookup
      else if r.status = 3 then Except.error GmshError.ModelBadInput
      else if r.status = 4 then Except.error GmshError.ModelParallelMeshQuery
      else Except.error GmshError.Execution, tr))

/-- Geo::add_line of model/geo.rs: select, then gmshModelGeoAddLine on the
raw point tags with auto numbering; same inline status match. -/
def Geo.add_line (self : Geo) (p1 p2 : PointTag)
    (ora : BIOracle F) (tr : List (BICall F)) :
    GmshResult CurveTag × List (BICall F) :=
  andThen (self.set_to_current ora tr) (fun _ tr =>
    let auto_number : Int := -1
    let r := ora tr (BICall.geoAddLine p1.to_raw p2.to_raw auto_number)
    let tr := tr ++ [BICall.geoAddLine p1.to_raw p2.to_raw auto_number]
    ( if r.status = 0 then Except.ok (CurveTag.mk r.tag)
      else if r.status = -1 then Except.error GmshError.Initialization
      else if r.status = 1 then Except.error GmshError.ModelMutation
      else if r.status = 2 then Except.error GmshError.ModelLookup
      else if r.status = 3 then Except.error GmshError.ModelBadInput
      else if r.status = 4 then Except.error GmshError.ModelParallelMeshQuery
      else Except.error GmshError.Execution, tr))

/-- Geo::add_surface of model/geo.rs lines 154 to 160 (and geo.rs lines
428 to 434): select, loop over the curves printing each raw tag to the
console (console output is not a Backend Interface call and leaves no
trace here), then return Ok(SurfaceTag(1)) unconditionally. -/
def Geo.add_surface (self : Geo) (_curves : List CurveTag)
    (ora : BIOracle F) (tr : List (BICall F)) :
    GmshResult SurfaceTag × List (BICall F) :=
  andThen (self.set_to_current ora tr) (fun _ tr =>
    (Except.ok (SurfaceTag.mk 1), tr))

/-- Geo::curve_or_surface_op of model/geo.rs lines 163 to 169: total on
the CurveOrSurface group, prints a description and issues no Backend
Interface call (its type involves no oracle and no trace); the returned
string is the console line the Rust code prints. -/
def Geo.curve_or_surface_op (_self : Geo) (gen_entity : CurveOrSurface) :
    String :=
  match gen_entity with
  | CurveOrSurface.Curve (CurveTag.mk ct) => "Curve with tag " ++ toString ct
  | CurveOrSurface.Surface (SurfaceTag.mk ct) => "Surface with tag " ++ toString ct

/-- Geo::synchronize of model/geo.rs: select, then gmshModelGeoSynchronize
with the same inline status match as add_point_gen. -/
def Geo.synchronize (self : Geo) (ora : BIOracle F) (tr : List (BICall F)) :
    GmshResult Unit × List (BICall F) :=
  andThen (self.set_to_current ora tr) (fun _ tr =>
    let r := ora tr BICall.geoSynchronize
    let tr := tr ++ [BICall.geoSynchronize]
    ( if r.status = 0 then Except.ok ()
      else if r.status = -1 then Except.error GmshError.Initialization
      else if r.status = 1 then Except.error GmshError.ModelMutation
      else if r.status = 2 then Except.error GmshError.ModelLookup
      else if r.status = 3 then Except.error GmshError.ModelBadInput
      else if r.status = 4 then Except.error GmshError.ModelParallelMeshQuery
      else Except.error GmshError.Execution, tr))

/-- Geo::generate_mesh of model/geo.rs lines 191 to 208: select, then
synchronize (which selects again and flushes), then gmshModelMeshGenerate
with the same inline status match. -/
def Geo.generate_mesh (self : Geo) (dim : Int)
    (ora : BIOracle F) (tr : List (BICall F)) :
    GmshResult Unit × List (BICall F) :=
  andThen (self.set_to_current ora tr) (fun _ tr =>
    andThen (self.synchronize ora tr) (fun _ tr =>
      let r := ora tr (BICall.meshGenerate dim)
      let tr := tr ++ [BICall.meshGenerate dim]
      ( if r.status = 0 then Except.ok ()
        else if r.status = -1 then Except.error GmshError.Initialization
        else if r.status = 1 then Except.error GmshError.ModelMutation
        else if r.status = 2 then Except.error GmshError.ModelLookup
        else if r.status = 3 then Except.error GmshError.ModelBadInput
        else if r.status = 4 then Except.error GmshError.ModelParallelMeshQuery
        else Except.error GmshError.Execution, tr)))

/-- The model type GeoModel of src/model/mod.rs (built-in kernel); its
shared methods come from the impl_model macro instantiated at GeoModel. -/
structure GeoModel where
  name : String
  c_name : String
deriving DecidableEq, Repr

/-- The model type OccModel of src/model/mod.rs (OpenCASCADE kernel); its
shared methods come from the impl_model macro instantiated at OccModel,
its kernel methods from src/model/occ.rs. -/
structure OccModel where
  name : String
  c_name : String
deriving DecidableEq, Repr

/-- GeoModel::create from the impl_model macro of model/mod.rs:
gmshModelAdd (which also selects the new model) interpreted with
check_main_error. -/
def GeoModel.create (name : String) (ora : BIOracle F) (tr : List (BICall F)) :
    GmshResult GeoModel × List (BICall F) :=
  match get_cstring name with
  | Except.error e => (Except.error e, tr)
  | Except.ok c_name =>
      let r := ora tr (BICall.modelAdd c_name)
      let tr := tr ++ [BICall.modelAdd c_name]
      (check_main_error r.status (GeoModel.mk name c_name), tr)

/-- OccModel::create from the impl_model macro of model/mod.rs. -/
def OccModel.create (name : String) (ora : BIOracle F) (tr : List (BICall F)) :
    GmshResult OccModel × List (BICall F) :=
  match get_cstring name with
  | Except.error e => (Except.error e, tr)
  | Except.ok c_name =>
      let r := ora tr (BICall.modelAdd c_name)
      let tr := tr ++ [BICall.modelAdd c_name]
      (check_main_error r.status (OccModel.mk name c_name), tr)

/-- GeoModel::set_current from the impl_model macro of model/mod.rs lines
356 to 365: gmshModelSetCurrent, any nonzero status is Execution. -/
def GeoModel.set_current (self : GeoModel) (ora : BIOracle F)
    (tr : List (BICall F)) : GmshResult Unit × List (BICall F) :=
  let r := ora tr (BICall.modelSetCurrent self.c_name)
  let tr := tr ++ [BICall.modelSetCurrent self.c_name]
  if r.status = 0 then (Except.ok (), tr)
  else (Except.error GmshError.Execution, tr)

/-- OccModel::set_current from the impl_model macro of model/mod.rs. -/
def OccModel.set_current (self : OccModel) (ora : BIOracle F)
    (tr : List (BICall F)) : GmshResult Unit × List (BICall F) :=
  let r := ora tr (BICall.modelSetCurrent self.c_name)
  let tr := tr ++ [BICall.modelSetCurrent self.c_name]
  if r.status = 0 then (Except.ok (), tr)
  else (Except.error GmshError.Execution, tr)

/-- GeoModel::remove from the impl_model macro of model/mod.rs: select,
then gmshModelRemove interpreted with check_main_error. -/
def GeoModel.remove (self : GeoModel) (ora : BIOracle F)
    (tr : List (BICall F)) : GmshResult Unit × List (BICall F) :=
  andThen (self.set_current ora tr) (fun _ tr =>
    let r := ora tr BICall.modelRemove
    let tr := tr ++ [BICall.modelRemove]
    (check_main_error r.status (), tr))

/-- OccModel::remove from the impl_model macro of model/mod.rs. -/
def OccModel.remove (self : OccModel) (ora : BIOracle F)
    (tr : List (BICall F)) : GmshResult Unit × List (BICall F) :=
  andThen (self.set_current ora tr) (fun _ tr =>
    let r := ora tr BICall.modelRemove
    let tr := tr ++ [BICall.modelRemove]
    (check_main_error r.status (), tr))

/-- GeoModel::synchronize from the impl_model macro of model/mod.rs:
select, then gmshModelGeoSynchronize interpreted with check_model_error. -/
def GeoModel.synchronize (self : GeoModel) (ora : BIOracle F)
    (tr : List (BICall F)) : GmshResult Unit × List (BICall F) :=
  andThen (self.set_current ora tr) (fun _ tr =>
    let r := ora tr BICall.geoSynchronize
    let tr := tr ++ [BICall.geoSynchronize]
    (check_model_error r.status (), tr))

/-- OccModel::synchronize from the impl_model macro of model/mod.rs:
select, then gmshModelOccSynchronize interpreted with check_model_error. -/
def OccModel.synchronize (self : OccModel) (ora : BIOracle F)
    (tr : List (BICall F)) : GmshResult Unit × List (BICall F) :=
  andThen (self.set_current ora tr) (fun _ tr =>
    let r := ora tr BICall.occSynchronize
    let tr := tr ++ [BICall.occSynchronize]
    (check_model_error r.status (), tr))

/-- GeoModel::generate_mesh from the impl_model macro of model/mod.rs
lines 381 to 390: select, then synchronize, then gmshModelMeshGenerate
interpreted with check_model_error. -/
def GeoModel.generate_mesh (self : GeoModel) (dim : Int) (ora : BIOracle F)
    (tr : List (BICall F)) : GmshResult Unit × List (BICall F) :=
  andThen (self.set_current ora tr) (fun _ tr =>
    andThen (self.synchronize ora tr) (fun _ tr =>
      let r := ora tr (BICall.meshGenerate dim)
      let tr := tr ++ [BICall.meshGenerate dim]
      (check_model_error r.status (), tr)))

/-- OccModel::generate_mesh from the impl_model macro of model/mod.rs. -/
def OccModel.generate_mesh (self : OccModel) (dim : Int) (ora : BIOracle F)
    (tr : List (BICall F)) : GmshResult Unit × List (BICall F) :=
  andThen (self.set_current ora tr) (fun _ tr =>
    andThen (self.synchronize ora tr) (fun _ tr =>
      let r := ora tr (BICall.meshGenerate dim)
      let tr := tr ++ [BICall.meshGenerate dim]
      (check_model_error r.status (), tr)))

/-- OccModel::add_point_gen of src/model/occ.rs lines 12 to 30: select,
default the mesh size to 0, auto numbering, call the occ add_point and
interpret the status with check_model_error. -/
def OccModel.add_point_gen [Zero F] (self : OccModel) (coords : F × F × F)
    (mesh_size : Option F) (ora : BIOracle F) (tr : List (BICall F)) :
    GmshResult PointTag × List (BICall F) :=
  andThen (self.set_current ora tr) (fun _ tr =>
    let (x, y, z) := coords
    let lc := mesh_size.getD 0
    let auto_number : Int := -1
    let r := ora tr (BICall.occAddPoint x y z lc auto_number)
    let tr := tr ++ [BICall.occAddPoint x y z lc auto_number]
    (check_model_error r.status (PointTag.mk r.tag), tr))

/-- OccModel::add_point of src/model/occ.rs: the shared constructor with
no mesh size (the console print is not a Backend Interface call). -/
def OccModel.add_point [Zero F] (self : OccModel) (x y z : F)
    (ora : BIOracle F) (tr : List (BICall F)) :
    GmshResult PointTag × List (BICall F) :=
  self.add_point_gen (x, y, z) none ora tr

/-- OccModel::add_point_with_lc of src/model/occ.rs: the shared
constructor with the given mesh size. -/
def OccModel.add_point_with_lc [Zero F] (self : OccModel) (x y z lc : F)
    (ora : BIOracle F) (tr : List (BICall F)) :
    GmshResult PointTag × List (BICall F) :=
  self.add_point_gen (x, y, z) (some lc) ora tr

/-- OccModel::add_line of src/model/occ.rs: select, then the occ add_line
on the raw point tags with auto numbering, status via check_model_error. -/
def OccModel.add_line (self : OccModel) (p1 p2 : PointTag)
    (ora : BIOracle F) (tr : List (BICall F)) :
    GmshResult CurveTag × List (BICall F) :=
  andThen (self.set_current ora tr) (fun _ tr =>
    let auto_number : Int := -1
    let r := ora tr (BICall.occAddLine p1.to_raw p2.to_raw auto_number)
    let tr := tr ++ [BICall.occAddLine p1.to_raw p2.to_raw auto_number]
    (check_model_error r.status (CurveTag.mk r.tag), tr))

/-- A simple concrete backend used to instantiate theorems: gmshInit gets
the first status, model selection the second, every other call the third
status together with the given out-tag and out-values; the response does
not depend on the history. -/
def constOracle (initStatus selStatus opStatus opTag : Int) (num : F)
    (str : Option String) : BIOracle F :=
  fun _ c =>
    match c with
    | BICall.gmshInit _ _ _ => BIResult.mk initStatus 0 num str
    | BICall.modelSetCurrent _ => BIResult.mk selStatus 0 num str
    | _ => BIResult.mk opStatus opTag num str

end WrapperOps

section Lemmas

variable {F : Type}

lemma geo_set_to_current_fail (g : Geo) (ora : BIOracle F) (tr : List (BICall F))
    (h : (ora tr (BICall.modelSetCurrent g.c_name)).status ≠ 0) :
    g.set_to_current ora tr =
      (Except.error GmshError.Execution, tr ++ [BICall.modelSetCurrent g.c_name]) := by
  simp [Geo.set_to_current, h]

lemma geo_set_to_current_ok (g : Geo) (ora : BIOracle F) (tr : List (BICall F))
    (h : (ora tr (BICall.modelSetCurrent g.c_name)).status = 0) :
    g.set_to_current ora tr =
      (Except.ok (), tr ++ [BICall.modelSetCurrent g.c_name]) := by
  simp [Geo.set_to_current, h]

lemma geoModel_set_current_fail (m : GeoModel) (ora : BIOracle F) (tr : List (BICall F))
    (h : (ora tr (BICall.modelSetCurrent m.c_name)).status ≠ 0) :
    m.set_current ora tr =
      (Except.error GmshError.Execution, tr ++ [BICall.modelSetCurrent m.c_name]) := by
  simp [GeoModel.set_current, h]

lemma geoModel_set_current_ok (m : GeoModel) (ora : BIOracle F) (tr : List (BICall F))
    (h : (ora tr (BICall.modelSetCurrent m.c_name)).status = 0) :
    m.set_current ora tr =
      (Except.ok (), tr ++ [BICall.modelSetCurrent m.c_name]) := by
  simp [GeoModel.set_current, h]

lemma occModel_set_current_fail (m : OccModel) (ora : BIOracle F) (tr : List (BICall F))
    (h : (ora tr (BICall.modelSetCurrent m.c_name)).status ≠ 0) :
    m.set_current ora tr =
      (Except.error GmshError.Execution, tr ++ [BICall.modelSetCurrent m.c_name]) := by
  simp [OccModel.set_current, h]

lemma occModel_set_current_ok (m : OccModel) (ora : BIOracle F) (tr : List (BICall F))
    (h : (ora tr (BICall.modelSetCurrent m.c_name)).status = 0) :
    m.set_current ora tr =
      (Except.ok (), tr ++ [BICall.modelSetCurrent m.c_name]) := by
  simp [OccModel.set_current, h]

/-- The status interpretation repeated inline by every model operation of
model/geo.rs (and geo.rs), factored as a function for use in statements:
it agrees with check_model_error of err.rs on statuses 0, -1, 1, 2, 3, 4
but its catch-all arm is Execution instead of UnknownError. -/
def geo_status {α : Type} (ierr : Int) (return_val : α) : GmshResult α :=
  if ierr = 0 then Except.ok return_val
  else if ierr = -1 then Except.error GmshError.Initialization
  else if ierr = 1 then Except.error GmshError.ModelMutation
  else if ierr = 2 then Except.error GmshError.ModelLookup
  else if ierr = 3 then Except.error GmshError.ModelBadInput
  else if ierr = 4 then Except.error GmshError.ModelParallelMeshQuery
  else Except.error GmshError.Execution

lemma geo_synchronize_chain (g : Geo) (ora : BIOracle F) (tr : List (BICall F))
    (h : (ora tr (BICall.modelSetCurrent g.c_name)).status = 0) :
    g.synchronize ora tr =
      (geo_status ((ora (tr ++ [BICall.modelSetCurrent g.c_name])
          BICall.geoSynchronize).status) (),
        tr ++ [BICall.modelSetCurrent g.c_name, BICall.geoSynchronize]) := by
  simp [Geo.synchronize, geo_set_to_current_ok g ora tr h, andThen, geo_status]

lemma geoModel_synchronize_chain (m : GeoModel) (ora : BIOracle F)
    (tr : List (BICall F))
    (h : (ora tr (BICall.modelSetCurrent m.c_name)).status = 0) :
    m.synchronize ora tr =
      (check_model_error ((ora (tr ++ [BICall.modelSetCurrent m.c_name])
          BICall.geoSynchronize).status) (),
        tr ++ [BICall.modelSetCurrent m.c_name, BICall.geoSynchronize]) := by
  simp [GeoModel.synchronize, geoModel_set_current_ok m ora tr h, andThen]

lemma occModel_synchronize_chain (m : OccModel) (ora : BIOracle F)
    (tr : List (BICall F))
    (h : (ora tr (BICall.modelSetCurrent m.c_name)).status = 0) :
    m.synchronize ora tr =
      (check_model_error ((ora (tr ++ [BICall.modelSetCurrent m.c_name])
          BICall.occSynchronize).status) (),
        tr ++ [BICall.modelSetCurrent m.c_name, BICall.occSynchronize]) := by
  simp [OccModel.synchronize, occModel_set_current_ok m ora tr h, andThen]

lemma andThen_ok {α β : Type} (a : α) (tr : List (BICall F))
    (k : α → List (BICall F) → GmshResult β × List (BICall F)) :
    andThen ((Except.ok a : GmshResult α), tr) k = k a tr := rfl

lemma andThen_error {α β : Type} (e : GmshError) (tr : List (BICall F))
    (k : α → List (BICall F) → GmshResult β × List (BICall F)) :
    andThen ((Except.error e : GmshResult α), tr) k = (Except.error e, tr) := rfl

lemma andThen_geo_status_unit (s : Int) (tr : List (BICall F))
    (k : Unit → List (BICall F) → GmshResult Unit × List (BICall F)) :
    andThen (geo_status s (), tr) k =
      if s = 0 then k () tr else (geo_status s (), tr) := by
  unfold geo_status
  split_ifs <;> simp [andThen]

lemma andThen_check_model_unit (s : Int) (tr : List (BICall F))
    (k : Unit → List (BICall F) → GmshResult Unit × List (BICall F)) :
    andThen (check_model_error s (), tr) k =
      if s = 0 then k () tr else (check_model_error s (), tr) := by
  unfold check_model_error
  split_ifs <;> simp [andThen]

end Lemmas

/-- Claim C5: negating a CurveTag is a pure value transform flipping the
sign of the underlying i32 (no Backend Interface call is possible: the
negation has no oracle or trace in its type), and it is its own inverse
for every i32 value. -/
theorem c5_curve_tag_neg_involution (c : CurveTag)
    (hlo : -(2 ^ 31) ≤ c.val) (hhi : c.val < 2 ^ 31) :
    - -c = c ∧ (-c).val = wrap32 (-c.val) := by
  constructor
  · show CurveTag.neg (CurveTag.neg c) = c
    cases c with
    | mk v =>
      simp only [CurveTag.neg, wrap32, CurveTag.mk.injEq]
      simp only [CurveTag.val] at hlo hhi
      omega
  · rfl

/-- Witness for C5 at the concrete tag 7. -/
theorem c5_curve_tag_neg_involution_witness :
    -(2 ^ 31) ≤ (CurveTag.mk 7).val ∧ (CurveTag.mk 7).val < 2 ^ 31 ∧
      (- - CurveTag.mk 7 = CurveTag.mk 7 ∧
        (- CurveTag.mk 7).val = wrap32 (-(CurveTag.mk 7).val)) :=
  ⟨by norm_num, by norm_num,
    c5_curve_tag_neg_involution (CurveTag.mk 7) (by norm_num) (by norm_num)⟩

/-- Claim C6: an absent target mesh size maps to the sentinel 0, so for
all coordinates the basic add_point is the same function of the backend
(same result, same issued calls) as add_point_with_lc at mesh size 0, on
both kernels; both members of each pair route through the one shared
internal constructor add_point_gen. -/
theorem c6_add_point_sentinel_equivalence {F : Type} [Zero F]
    (g : Geo) (m : OccModel) (x y z : F)
    (ora : BIOracle F) (tr : List (BICall F)) :
    Geo.add_point g x y z ora tr = Geo.add_point_with_lc g x y z 0 ora tr ∧
    OccModel.add_point m x y z ora tr = OccModel.add_point_with_lc m x y z 0 ora tr :=
  ⟨rfl, rfl⟩

/-- Claim C7: the CurveOrSurface capability group is a closed sum with
exactly a curve case and a surface case, curve_or_surface_op is total on
it (it accepts every CurveTag and every SurfaceTag through the two
conversions, the only ways into the group, so points and volumes are
excluded at construction), and it issues no Backend Interface call (its
type has no oracle or trace). -/
theorem c7_curve_or_surface_capability (g : Geo) :
    (∀ e : CurveOrSurface,
        (∃ c, e = CurveOrSurface.ofCurveTag c) ∨
        (∃ s, e = CurveOrSurface.ofSurfaceTag s)) ∧
    (∀ c : CurveTag,
        Geo.curve_or_surface_op g (CurveOrSurface.ofCurveTag c) =
          "Curve with tag " ++ toString c.val) ∧
    (∀ s : SurfaceTag,
        Geo.curve_or_surface_op g (CurveOrSurface.ofSurfaceTag s) =
          "Surface with tag " ++ toString s.val) := by
  refine ⟨?_, fun c => rfl, fun s => rfl⟩
  intro e
  cases e with
  | Curve c => exact Or.inl ⟨c, rfl⟩
  | Surface s => exact Or.inr ⟨s, rfl⟩

/-- Claim C10: whenever the select step succeeds, Geo::add_surface returns
Ok(SurfaceTag(1)) for every curve list, and the only Backend Interface
call it issues is the select itself (no surface-construction call). -/
theorem c10_add_surface_returns_constant_tag {F : Type} (g : Geo)
    (curves : List CurveTag) (ora : BIOracle F) (tr : List (BICall F))
    (h : (ora tr (BICall.modelSetCurrent g.c_name)).status = 0) :
    Geo.add_surface g curves ora tr =
      (Except.ok (SurfaceTag.mk 1), tr ++ [BICall.modelSetCurrent g.c_name]) := by
  simp [Geo.add_surface, geo_set_to_current_ok g ora tr h, andThen]

/-- Witness for C10: a backend that accepts the select, and two curves
that do not form a closed loop; the result is still Ok(SurfaceTag(1)). -/
theorem c10_add_surface_returns_constant_tag_witness :
    ((constOracle 0 0 0 0 (0 : Int) none) []
        (BICall.modelSetCurrent "m")).status = 0 ∧
    Geo.add_surface (Geo.mk "m" "m") [CurveTag.mk 5, CurveTag.mk 9]
        (constOracle 0 0 0 0 (0 : Int) none) [] =
      (Except.ok (SurfaceTag.mk 1), [BICall.modelSetCurrent "m"]) :=
  ⟨rfl, c10_add_surface_returns_constant_tag (Geo.mk "m" "m")
    [CurveTag.mk 5, CurveTag.mk 9] (constOracle 0 0 0 0 (0 : Int) none) [] rfl⟩

/-- Claim C2: every mutating or querying operation on a model (add_point,
add_point_with_lc, add_line, remove_point, synchronize, generate_mesh,
remove, over all three model types that carry them) first issues the
select call; whenever the backend rejects the select, the operation
returns the Execution error kind and the select is the only Backend
Interface call issued (the explicit trace shows no substantive call). -/
theorem c2_select_failure_aborts {F : Type} [Zero F]
    (g : Geo) (gm : GeoModel) (om : OccModel)
    (ora : BIOracle F) (tr : List (BICall F))
    (x y z lc : F) (p p1 p2 : PointTag) (dim : Int)
    (hg : (ora tr (BICall.modelSetCurrent g.c_name)).status ≠ 0)
    (hm : (ora tr (BICall.modelSetCurrent gm.c_name)).status ≠ 0)
    (ho : (ora tr (BICall.modelSetCurrent om.c_name)).status ≠ 0) :
    Geo.add_point g x y z ora tr =
      (Except.error GmshError.Execution, tr ++ [BICall.modelSetCurrent g.c_name]) ∧
    Geo.add_point_with_lc g x y z lc ora tr =
      (Except.error GmshError.Execution, tr ++ [BICall.modelSetCurrent g.c_name]) ∧
    Geo.add_line g p1 p2 ora tr =
      (Except.error GmshError.Execution, tr ++ [BICall.modelSetCurrent g.c_name]) ∧
    Geo.remove_point g p ora tr =
      (Except.error GmshError.Execution, tr ++ [BICall.modelSetCurrent g.c_name]) ∧
    Geo.synchronize g ora tr =
      (Except.error GmshError.Execution, tr ++ [BICall.modelSetCurrent g.c_name]) ∧
    Geo.generate_mesh g dim ora tr =
      (Except.error GmshError.Execution, tr ++ [BICall.modelSetCurrent g.c_name]) ∧
    Geo.remove g ora tr =
      (Except.error GmshError.Execution, tr ++ [BICall.modelSetCurrent g.c_name]) ∧
    GeoModel.synchronize gm ora tr =
      (Except.error GmshError.Execution, tr ++ [BICall.modelSetCurrent gm.c_name]) ∧
    GeoModel.generate_mesh gm dim ora tr =
      (Except.error GmshError.Execution, tr ++ [BICall.modelSetCurrent gm.c_name]) ∧
    GeoModel.remove gm ora tr =
      (Except.error GmshError.Execution, tr ++ [BICall.modelSetCurrent gm.c_name]) ∧
    OccModel.add_point om x y z ora tr =
      (Except.error GmshError.Execution, tr ++ [BICall.modelSetCurrent om.c_name]) ∧
    OccModel.add_point_with_lc om x y z lc ora tr =
      (Except.error GmshError.Execution, tr ++ [BICall.modelSetCurrent om.c_name]) ∧
    OccModel.add_line om p1 p2 ora tr =
      (Except.error GmshError.Execution, tr ++ [BICall.modelSetCurrent om.c_name]) ∧
    OccModel.synchronize om ora tr =
      (Except.error GmshError.Execution, tr ++ [BICall.modelSetCurrent om.c_name]) ∧
    OccModel.generate_mesh om dim ora tr =
      (Except.error GmshError.Execution, tr ++ [BICall.modelSetCurrent om.c_name]) ∧
    OccModel.remove om ora tr =
      (Except.error GmshError.Execution, tr ++ [BICall.modelSetCurrent om.c_name]) := by
  refine ⟨?_, ?_, ?_, ?_, ?_, ?_, ?_, ?_, ?_, ?_, ?_, ?_, ?_, ?_, ?_, ?_⟩ <;>
    simp [Geo.add_point, Geo.add_point_with_lc, Geo.add_line, Geo.remove_point,
      Geo.synchronize, Geo.generate_mesh, Geo.remove,
      GeoModel.synchronize, GeoModel.generate_mesh, GeoModel.remove,
      OccModel.add_point, OccModel.add_point_with_lc, OccModel.add_point_gen,
      OccModel.add_line, OccModel.synchronize, OccModel.generate_mesh,
      OccModel.remove,
      geo_set_to_current_fail g ora tr hg,
      geoModel_set_current_fail gm ora tr hm,
      occModel_set_current_fail om ora tr ho, andThen]

/-- Witness for C2: a backend whose select returns status 7 for every
model name; every listed operation stops at the failed select. -/
theorem c2_select_failure_aborts_witness :
    ((constOracle 0 7 0 0 (0 : Int) none) []
        (BICall.modelSetCurrent "a")).status ≠ 0 ∧
    ((constOracle 0 7 0 0 (0 : Int) none) []
        (BICall.modelSetCurrent "b")).status ≠ 0 ∧
    ((constOracle 0 7 0 0 (0 : Int) none) []
        (BICall.modelSetCurrent "c")).status ≠ 0 ∧
    (Geo.add_point (Geo.mk "a" "a") (0 : Int) 0 0
        (constOracle 0 7 0 0 (0 : Int) none) [] =
      (Except.error GmshError.Execution, [BICall.modelSetCurrent "a"]) ∧
    Geo.add_point_with_lc (Geo.mk "a" "a") (0 : Int) 0 0 0
        (constOracle 0 7 0 0 (0 : Int) none) [] =
      (Except.error GmshError.Execution, [BICall.modelSetCurrent "a"]) ∧
    Geo.add_line (Geo.mk "a" "a") (PointTag.mk 1) (PointTag.mk 2)
        (constOracle 0 7 0 0 (0 : Int) none) [] =
      (Except.error GmshError.Execution, [BICall.modelSetCurrent "a"]) ∧
    Geo.remove_point (Geo.mk "a" "a") (PointTag.mk 1)
        (constOracle 0 7 0 0 (0 : Int) none) [] =
      (Except.error GmshError.Execution, [BICall.modelSetCurrent "a"]) ∧
    Geo.synchronize (Geo.mk "a" "a")
        (constOracle 0 7 0 0 (0 : Int) none) [] =
      (Except.error GmshError.Execution, [BICall.modelSetCurrent "a"]) ∧
    Geo.generate_mesh (Geo.mk "a" "a") 2
        (constOracle 0 7 0 0 (0 : Int) none) [] =
      (Except.error GmshError.Execution, [BICall.modelSetCurrent "a"]) ∧
    Geo.remove (Geo.mk "a" "a")
        (constOracle 0 7 0 0 (0 : Int) none) [] =
      (Except.error GmshError.Execution, [BICall.modelSetCurrent "a"]) ∧
    GeoModel.synchronize (GeoModel.mk "b" "b")
        (constOracle 0 7 0 0 (0 : Int) none) [] =
      (Except.error GmshError.Execution, [BICall.modelSetCurrent "b"]) ∧
    GeoModel.generate_mesh (GeoModel.mk "b" "b") 2
        (constOracle 0 7 0 0 (0 : Int) none) [] =
      (Except.error GmshError.Execution, [BICall.modelSetCurrent "b"]) ∧
    GeoModel.remove (GeoModel.mk "b" "b")
        (constOracle 0 7 0 0 (0 : Int) none) [] =
      (Except.error GmshError.Execution, [BICall.modelSetCurrent "b"]) ∧
    OccModel.add_point (OccModel.mk "c" "c") (0 : Int) 0 0
        (constOracle 0 7 0 0 (0 : Int) none) [] =
      (Except.error GmshError.Execution, [BICall.modelSetCurrent "c"]) ∧
    OccModel.add_point_with_lc (OccModel.mk "c" "c") (0 : Int) 0 0 0
        (constOracle 0 7 0 0 (0 : Int) none) [] =
      (Except.error GmshError.Execution, [BICall.modelSetCurrent "c"]) ∧
    OccModel.add_line (OccModel.mk "c" "c") (PointTag.mk 1) (PointTag.mk 2)
        (constOracle 0 7 0 0 (0 : Int) none) [] =
      (Except.error GmshError.Execution, [BICall.modelSetCurrent "c"]) ∧
    OccModel.synchronize (OccModel.mk "c" "c")
        (constOracle 0 7 0 0 (0 : Int) none) [] =
      (Except.error GmshError.Execution, [BICall.modelSetCurrent "c"]) ∧
    OccModel.generate_mesh (OccModel.mk "c" "c") 2
        (constOracle 0 7 0 0 (0 : Int) none) [] =
      (Except.error GmshError.Execution, [BICall.modelSetCurrent "c"]) ∧
    OccModel.remove (OccModel.mk "c" "c")
        (constOracle 0 7 0 0 (0 : Int) none) [] =
      (Except.error GmshError.Execution, [BICall.modelSetCurrent "c"])) :=
  ⟨by decide, by decide, by decide,
    c2_select_failure_aborts (Geo.mk "a" "a") (GeoModel.mk "b" "b")
      (OccModel.mk "c" "c") (constOracle 0 7 0 0 (0 : Int) none) []
      0 0 0 0 (PointTag.mk 1) (PointTag.mk 1) (PointTag.mk 2) 2
      (by decide) (by decide) (by decide)⟩

/-- Claim C8: for every dimension, generate_mesh (on each of the three
model types) first selects its model, then synchronizes it (the
synchronize step itself re-selects and then flushes), and only then issues
the mesh-generation call; the explicit traces show that when the first
select fails, or the re-select inside synchronize fails, or the
synchronize call fails, the mesh-generation call is never issued, and that
when all preliminaries succeed the calls appear in exactly the order
select, select, synchronize, mesh-generate. -/
theorem c8_generate_mesh_protocol {F : Type} (g : Geo) (gm : GeoModel)
    (om : OccModel) (dim : Int) (ora : BIOracle F) (tr : List (BICall F)) :
    (((ora tr (BICall.modelSetCurrent g.c_name)).status ≠ 0 →
        Geo.generate_mesh g dim ora tr =
          (Except.error GmshError.Execution,
            tr ++ [BICall.modelSetCurrent g.c_name])) ∧
      ((ora tr (BICall.modelSetCurrent g.c_name)).status = 0 →
        (ora (tr ++ [BICall.modelSetCurrent g.c_name])
            (BICall.modelSetCurrent g.c_name)).status ≠ 0 →
        Geo.generate_mesh g dim ora tr =
          (Except.error GmshError.Execution,
            tr ++ [BICall.modelSetCurrent g.c_name,
              BICall.modelSetCurrent g.c_name])) ∧
      ((ora tr (BICall.modelSetCurrent g.c_name)).status = 0 →
        (ora (tr ++ [BICall.modelSetCurrent g.c_name])
            (BICall.modelSetCurrent g.c_name)).status = 0 →
        Geo.generate_mesh g dim ora tr =
          (if (ora (tr ++ [BICall.modelSetCurrent g.c_name,
                BICall.modelSetCurrent g.c_name]) BICall.geoSynchronize).status = 0
           then
             (geo_status ((ora (tr ++ [BICall.modelSetCurrent g.c_name,
                 BICall.modelSetCurrent g.c_name, BICall.geoSynchronize])
                 (BICall.meshGenerate dim)).status) (),
               tr ++ [BICall.modelSetCurrent g.c_name,
                 BICall.modelSetCurrent g.c_name, BICall.geoSynchronize,
                 BICall.meshGenerate dim])
           else
             (geo_status ((ora (tr ++ [BICall.modelSetCurrent g.c_name,
                 BICall.modelSetCurrent g.c_name])
                 BICall.geoSynchronize).status) (),
               tr ++ [BICall.modelSetCurrent g.c_name,
                 BICall.modelSetCurrent g.c_name, BICall.geoSynchronize])))) ∧
    (((ora tr (BICall.modelSetCurrent gm.c_name)).status ≠ 0 →
        GeoModel.generate_mesh gm dim ora tr =
          (Except.error GmshError.Execution,
            tr ++ [BICall.modelSetCurrent gm.c_name])) ∧
      ((ora tr (BICall.modelSetCurrent gm.c_name)).status = 0 →
        (ora (tr ++ [BICall.modelSetCurrent gm.c_name])
            (BICall.modelSetCurrent gm.c_name)).status ≠ 0 →
        GeoModel.generate_mesh gm dim ora tr =
          (Except.error GmshError.Execution,
            tr ++ [BICall.modelSetCurrent gm.c_name,
              BICall.modelSetCurrent gm.c_name])) ∧
      ((ora tr (BICall.modelSetCurrent gm.c_name)).status = 0 →
        (ora (tr ++ [BICall.modelSetCurrent gm.c_name])
            (BICall.modelSetCurrent gm.c_name)).status = 0 →
        GeoModel.generate_mesh gm dim ora tr =
          (if (ora (tr ++ [BICall.modelSetCurrent gm.c_name,
                BICall.modelSetCurrent gm.c_name]) BICall.geoSynchronize).status = 0
           then
             (check_model_error ((ora (tr ++ [BICall.modelSetCurrent gm.c_name,
                 BICall.modelSetCurrent gm.c_name, BICall.geoSynchronize])
                 (BICall.meshGenerate dim)).status) (),
               tr ++ [BICall.modelSetCurrent gm.c_name,
                 BICall.modelSetCurrent gm.c_name, BICall.geoSynchronize,
                 BICall.meshGenerate dim])
           else
             (check_model_error ((ora (tr ++ [BICall.modelSetCurrent gm.c_name,
                 BICall.modelSetCurrent gm.c_name])
                 BICall.geoSynchronize).status) (),
               tr ++ [BICall.modelSetCurrent gm.c_name,
                 BICall.modelSetCurrent gm.c_name, BICall.geoSynchronize])))) ∧
    (((ora tr (BICall.modelSetCurrent om.c_name)).status ≠ 0 →
        OccModel.generate_mesh om dim ora tr =
          (Except.error GmshError.Execution,
            tr ++ [BICall.modelSetCurrent om.c_name])) ∧
      ((ora tr (BICall.modelSetCurrent om.c_name)).status = 0 →
        (ora (tr ++ [BICall.modelSetCurrent om.c_name])
            (BICall.modelSetCurrent om.c_name)).status ≠ 0 →
        OccModel.generate_mesh om dim ora tr =
          (Except.error GmshError.Execution,
            tr ++ [BICall.modelSetCurrent om.c_name,
              BICall.modelSetCurrent om.c_name])) ∧
      ((ora tr (BICall.modelSetCurrent om.c_name)).status = 0 →
        (ora (tr ++ [BICall.modelSetCurrent om.c_name])
            (BICall.modelSetCurrent om.c_name)).status = 0 →
        OccModel.generate_mesh om dim ora tr =
          (if (ora (tr ++ [BICall.modelSetCurrent om.c_name,
                BICall.modelSetCurrent om.c_name]) BICall.occSynchronize).status = 0
           then
             (check_model_error ((ora (tr ++ [BICall.modelSetCurrent om.c_name,
                 BICall.modelSetCurrent om.c_name, BICall.occSynchronize])
                 (BICall.meshGenerate dim)).status) (),
               tr ++ [BICall.modelSetCurrent om.c_name,
                 BICall.modelSetCurrent om.c_name, BICall.occSynchronize,
                 BICall.meshGenerate dim])
           else
             (check_model_error ((ora (tr ++ [BICall.modelSetCurrent om.c_name,
                 BICall.modelSetCurrent om.c_name])
                 BICall.occSynchronize).status) (),
               tr ++ [BICall.modelSetCurrent om.c_name,
                 BICall.modelSetCurrent om.c_name, BICall.occSynchronize])))) := by
  refine ⟨⟨?_, ?_, ?_⟩, ⟨?_, ?_, ?_⟩, ⟨?_, ?_, ?_⟩⟩
  · intro h1
    simp only [Geo.generate_mesh]
    rw [geo_set_to_current_fail g ora tr h1, andThen_error]
  · intro h1 h2
    simp only [Geo.generate_mesh]
    rw [geo_set_to_current_ok g ora tr h1]
    simp only [andThen_ok, Geo.synchronize]
    rw [geo_set_to_current_fail g ora (tr ++ [BICall.modelSetCurrent g.c_name]) h2]
    simp only [andThen_error, List.append_assoc, List.singleton_append,
      List.cons_append, List.nil_append]
  · intro h1 h2
    simp only [Geo.generate_mesh]
    rw [geo_set_to_current_ok g ora tr h1]
    simp only [andThen_ok]
    rw [geo_synchronize_chain g ora (tr ++ [BICall.modelSetCurrent g.c_name]) h2]
    simp only [andThen_geo_status_unit, List.append_assoc, List.singleton_append,
      List.cons_append, List.nil_append]
    split_ifs <;> simp [geo_status, *]
  · intro h1
    simp only [GeoModel.generate_mesh]
    rw [geoModel_set_current_fail gm ora tr h1, andThen_error]
  · intro h1 h2
    simp only [GeoModel.generate_mesh]
    rw [geoModel_set_current_ok gm ora tr h1]
    simp only [andThen_ok, GeoModel.synchronize]
    rw [geoModel_set_current_fail gm ora
      (tr ++ [BICall.modelSetCurrent gm.c_name]) h2]
    simp only [andThen_error, List.append_assoc, List.singleton_append,
      List.cons_append, List.nil_append]
  · intro h1 h2
    simp only [GeoModel.generate_mesh]
    rw [geoModel_set_current_ok gm ora tr h1]
    simp only [andThen_ok]
    rw [geoModel_synchronize_chain gm ora
      (tr ++ [BICall.modelSetCurrent gm.c_name]) h2]
    simp only [andThen_check_model_unit, List.append_assoc, List.singleton_append,
      List.cons_append, List.nil_append]
  · intro h1
    simp only [OccModel.generate_mesh]
    rw [occModel_set_current_fail om ora tr h1, andThen_error]
  · intro h1 h2
    simp only [OccModel.generate_mesh]
    rw [occModel_set_current_ok om ora tr h1]
    simp only [andThen_ok, OccModel.synchronize]
    rw [occModel_set_current_fail om ora
      (tr ++ [BICall.modelSetCurrent om.c_name]) h2]
    simp only [andThen_error, List.append_assoc, List.singleton_append,
      List.cons_append, List.nil_append]
  · intro h1 h2
    simp only [OccModel.generate_mesh]
    rw [occModel_set_current_ok om ora tr h1]
    simp only [andThen_ok]
    rw [occModel_synchronize_chain om ora
      (tr ++ [BICall.modelSetCurrent om.c_name]) h2]
    simp only [andThen_check_model_unit, List.append_assoc, List.singleton_append,
      List.cons_append, List.nil_append]

/-- Counterexample to claim C1 as stated: the claim says every listed
model operation maps a status outside 0, -1, 1, 2, 3, 4 to the Unknown
kind, but Geo::add_point (via the inline match of model/geo.rs) answers
status 5 with Execution, which differs from the UnknownError that
check_model_error (the mapping of err.rs, used by the other model
operations) assigns to the same status. -/
theorem c1_catch_all_counterexample :
    (Geo.add_point (Geo.mk "m" "m") (1 : Int) 2 3
        (constOracle 0 0 5 42 (0 : Int) none) []).1 =
      Except.error GmshError.Execution ∧
    check_model_error (5 : Int) (PointTag.mk 42) =
      Except.error GmshError.UnknownError ∧
    GmshError.Execution ≠ GmshError.UnknownError :=
  ⟨rfl, rfl, by decide⟩

/-- Claim C1, amended: on statuses 0, -1, 1, 2, 3, 4 every model
mutation/query operation maps the backend status identically (success,
Initialization, ModelMutation, ModelLookup, ModelBadInput,
ModelParallelMeshQuery); operations routed through check_model_error of
err.rs (the OccModel constructors and the synchronize/generate_mesh of
both model types in model/mod.rs) map every other status to UnknownError,
while the operations of the Geo type in model/geo.rs (add_point,
add_point_with_lc, add_line, remove_point, synchronize, generate_mesh)
map every other status to Execution.  Stated for every substantive status
s and tag t against a backend that accepts selects and answers s, t. -/
theorem c1_status_mapping_per_family {F : Type} [Zero F]
    (g : Geo) (gm : GeoModel) (om : OccModel)
    (x y z lc num : F) (p p1 p2 : PointTag) (dim : Int) (s t : Int) :
    (Geo.add_point g x y z (constOracle 0 0 s t num none) []).1 =
        geo_status s (PointTag.mk t) ∧
    (Geo.add_point_with_lc g x y z lc (constOracle 0 0 s t num none) []).1 =
        geo_status s (PointTag.mk t) ∧
    (Geo.add_line g p1 p2 (constOracle 0 0 s t num none) []).1 =
        geo_status s (CurveTag.mk t) ∧
    (Geo.remove_point g p (constOracle 0 0 s t num none) []).1 =
        geo_status s () ∧
    (Geo.synchronize g (constOracle 0 0 s t num none) []).1 =
        geo_status s () ∧
    (Geo.generate_mesh g dim (constOracle 0 0 s t num none) []).1 =
        geo_status s () ∧
    (OccModel.add_point om x y z (constOracle 0 0 s t num none) []).1 =
        check_model_error s (PointTag.mk t) ∧
    (OccModel.add_point_with_lc om x y z lc (constOracle 0 0 s t num none) []).1 =
        check_model_error s (PointTag.mk t) ∧
    (OccModel.add_line om p1 p2 (constOracle 0 0 s t num none) []).1 =
        check_model_error s (CurveTag.mk t) ∧
    (OccModel.synchronize om (constOracle 0 0 s t num none) []).1 =
        check_model_error s () ∧
    (OccModel.generate_mesh om dim (constOracle 0 0 s t num none) []).1 =
        check_model_error s () ∧
    (GeoModel.synchronize gm (constOracle 0 0 s t num none) []).1 =
        check_model_error s () ∧
    (GeoModel.generate_mesh gm dim (constOracle 0 0 s t num none) []).1 =
        check_model_error s () := by
  refine ⟨rfl, rfl, rfl, rfl, rfl, ?_, rfl, rfl, rfl, rfl, ?_, rfl, ?_⟩
  · simp only [Geo.generate_mesh]
    rw [geo_set_to_current_ok g (constOracle 0 0 s t num none) [] rfl]
    simp only [andThen_ok, List.nil_append]
    rw [geo_synchronize_chain g (constOracle 0 0 s t num none)
      [BICall.modelSetCurrent g.c_name] rfl]
    rw [show ((constOracle 0 0 s t num none : BIOracle F)
        ([BICall.modelSetCurrent g.c_name] ++ [BICall.modelSetCurrent g.c_name])
        BICall.geoSynchronize).status = s from rfl]
    rw [andThen_geo_status_unit]
    by_cases hs : s = 0
    · simp [hs, geo_status, constOracle]
    · simp [hs, geo_status]
  · simp only [OccModel.generate_mesh]
    rw [occModel_set_current_ok om (constOracle 0 0 s t num none) [] rfl]
    simp only [andThen_ok, List.nil_append]
    rw [occModel_synchronize_chain om (constOracle 0 0 s t num none)
      [BICall.modelSetCurrent om.c_name] rfl]
    rw [show ((constOracle 0 0 s t num none : BIOracle F)
        ([BICall.modelSetCurrent om.c_name] ++ [BICall.modelSetCurrent om.c_name])
        BICall.occSynchronize).status = s from rfl]
    rw [andThen_check_model_unit]
    by_cases hs : s = 0
    · simp [hs, check_model_error, constOracle]
    · simp [hs, check_model_error]
  · simp only [GeoModel.generate_mesh]
    rw [geoModel_set_current_ok gm (constOracle 0 0 s t num none) [] rfl]
    simp only [andThen_ok, List.nil_append]
    rw [geoModel_synchronize_chain gm (constOracle 0 0 s t num none)
      [BICall.modelSetCurrent gm.c_name] rfl]
    rw [show ((constOracle 0 0 s t num none : BIOracle F)
        ([BICall.modelSetCurrent gm.c_name] ++ [BICall.modelSetCurrent gm.c_name])
        BICall.geoSynchronize).status = s from rfl]
    rw [andThen_check_model_unit]
    by_cases hs : s = 0
    · simp [hs, check_model_error, constOracle]
    · simp [hs, check_model_error]

/-- Counterexample to claim C3 as stated: initialization is not the only
error kind Session creation can return.  Against a backend whose
gmshInitialize succeeds but whose option-set call answers status 1 (the
unknown-option status), Gmsh::initialize propagates UnknownOption from
its baseline terminal-logging configuration step. -/
theorem c3_initialize_unknown_option_counterexample :
    (Gmsh.initialize_session (constOracle 0 0 1 0 (0 : Int) none) []).1 =
      Except.error GmshError.UnknownOption ∧
    GmshError.UnknownOption ≠ GmshError.Initialization :=
  ⟨rfl, by decide⟩

/-- Claim C3, amended: initialize returns a fully constructed Session
exactly when the backend startup call and the baseline terminal-option
configuration both succeed; a failing startup yields exactly
Initialization, while a failing option step propagates the option
category mapping (Initialization, UnknownOption or UnknownError).  In
every failing case the result is an error, never a partially initialized
Session. -/
theorem c3_initialize_error_kinds {F : Type} [One F]
    (ora : BIOracle F) (tr : List (BICall F)) :
    Gmsh.initialize_session ora tr =
      if (ora tr (BICall.gmshInit 1 ["gmsh"] 0)).status = 0 then
        (Except.map (fun _ => Gmsh.mk)
            (check_option_error
              ((ora (tr ++ [BICall.gmshInit 1 ["gmsh"] 0])
                (BICall.optionSetNumber "General.Terminal" 1)).status) ()),
          tr ++ [BICall.gmshInit 1 ["gmsh"] 0,
            BICall.optionSetNumber "General.Terminal" 1])
      else
        (Except.error GmshError.Initialization,
          tr ++ [BICall.gmshInit 1 ["gmsh"] 0]) := by
  have hnul : get_cstring "General.Terminal" = Except.ok "General.Terminal" := rfl
  simp only [Gmsh.initialize_session, Gmsh.set_number_option, hnul]
  unfold check_option_error
  split_ifs <;> simp [Except.map]

/-- Claim C4: for every NUL-free option name and every backend status s
answered uniformly to the four option accessors, each accessor applies
the one option mapping: status 0 succeeds with the out-value, -1 is
Initialization, 1 (the unrecognized-name status) is UnknownOption for
all four accessors, and any other status is UnknownError; no accessor
returns a silent default. -/
theorem c4_unknown_option_mapping {F : Type} (g : Gmsh) (name : String)
    (value : F) (str_value : String) (ora : BIOracle F)
    (tr : List (BICall F)) (s : Int)
    (hnul : Char.ofNat 0 ∉ name.data)
    (hnul2 : Char.ofNat 0 ∉ str_value.data)
    (h1 : (ora tr (BICall.optionGetNumber name)).status = s)
    (h2 : (ora tr (BICall.optionSetNumber name value)).status = s)
    (h3 : (ora tr (BICall.optionGetString name)).status = s)
    (h4 : (ora tr (BICall.optionGetString name)).str = some str_value)
    (h5 : (ora tr (BICall.optionSetString name str_value)).status = s) :
    (Gmsh.get_number_option g name ora tr).1 =
      (if s = 0 then Except.ok ((ora tr (BICall.optionGetNumber name)).num)
       else if s = -1 then Except.error GmshError.Initialization
       else if s = 1 then Except.error GmshError.UnknownOption
       else Except.error GmshError.UnknownError) ∧
    (Gmsh.set_number_option g name value ora tr).1 =
      (if s = 0 then Except.ok ()
       else if s = -1 then Except.error GmshError.Initialization
       else if s = 1 then Except.error GmshError.UnknownOption
       else Except.error GmshError.UnknownError) ∧
    (Gmsh.get_string_option g name ora tr).1 =
      (if s = 0 then Except.ok str_value
       else if s = -1 then Except.error GmshError.Initialization
       else if s = 1 then Except.error GmshError.UnknownOption
       else Except.error GmshError.UnknownError) ∧
    (Gmsh.set_string_option g name str_value ora tr).1 =
      (if s = 0 then Except.ok ()
       else if s = -1 then Except.error GmshError.Initialization
       else if s = 1 then Except.error GmshError.UnknownOption
       else Except.error GmshError.UnknownError) := by
  refine ⟨?_, ?_, ?_, ?_⟩
  · simp [Gmsh.get_number_option, get_cstring, hnul, check_option_error, h1]
  · simp [Gmsh.set_number_option, get_cstring, hnul, check_option_error, h2]
  · simp [Gmsh.get_string_option, get_cstring, hnul, check_option_error, h3, h4]
  · simp [Gmsh.set_string_option, get_cstring, hnul, hnul2,
      check_option_error, h5]

/-- Witness for C4: the unknown-name status 1 on the concrete name
Bad.Option makes all four accessors answer UnknownOption. -/
theorem c4_unknown_option_mapping_witness :
    (Char.ofNat 0 ∉ "Bad.Option".data) ∧
    (Char.ofNat 0 ∉ "Garbo".data) ∧
    ((constOracle 0 0 1 9 (0 : Int) (some "Garbo")) []
        (BICall.optionGetNumber "Bad.Option")).status = 1 ∧
    ((constOracle 0 0 1 9 (0 : Int) (some "Garbo")) []
        (BICall.optionSetNumber "Bad.Option" 0)).status = 1 ∧
    ((constOracle 0 0 1 9 (0 : Int) (some "Garbo")) []
        (BICall.optionGetString "Bad.Option")).status = 1 ∧
    ((constOracle 0 0 1 9 (0 : Int) (some "Garbo")) []
        (BICall.optionGetString "Bad.Option")).str = some "Garbo" ∧
    ((constOracle 0 0 1 9 (0 : Int) (some "Garbo")) []
        (BICall.optionSetString "Bad.Option" "Garbo")).status = 1 ∧
    ((Gmsh.get_number_option Gmsh.mk "Bad.Option"
        (constOracle 0 0 1 9 (0 : Int) (some "Garbo")) []).1 =
        Except.error GmshError.UnknownOption ∧
      (Gmsh.set_number_option Gmsh.mk "Bad.Option" (0 : Int)
        (constOracle 0 0 1 9 (0 : Int) (some "Garbo")) []).1 =
        Except.error GmshError.UnknownOption ∧
      (Gmsh.get_string_option Gmsh.mk "Bad.Option"
        (constOracle 0 0 1 9 (0 : Int) (some "Garbo")) []).1 =
        Except.error GmshError.UnknownOption ∧
      (Gmsh.set_string_option Gmsh.mk "Bad.Option" "Garbo"
        (constOracle 0 0 1 9 (0 : Int) (some "Garbo")) []).1 =
        Except.error GmshError.UnknownOption) :=
  ⟨by decide, by decide, rfl, rfl, rfl, rfl, rfl,
    c4_unknown_option_mapping Gmsh.mk "Bad.Option" (0 : Int) "Garbo"
      (constOracle 0 0 1 9 (0 : Int) (some "Garbo")) [] 1
      (by decide) (by decide) rfl rfl rfl rfl rfl⟩

/-- Witness for C8: a backend that rejects every select with status 9;
generate_mesh stops after the single select call. -/
theorem c8_generate_mesh_protocol_witness :
    ((constOracle 0 9 0 0 (0 : Int) none) []
        (BICall.modelSetCurrent "g")).status ≠ 0 ∧
    Geo.generate_mesh (Geo.mk "g" "g") 2
        (constOracle 0 9 0 0 (0 : Int) none) [] =
      (Except.error GmshError.Execution, [BICall.modelSetCurrent "g"]) :=
  ⟨by decide,
    (c8_generate_mesh_protocol (Geo.mk "g" "g") (GeoModel.mk "g" "g")
      (OccModel.mk "g" "g") 2 (constOracle 0 9 0 0 (0 : Int) none) []).1.1
      (by decide)⟩
